import Mathlib

/-!
Verification development for the kokosa-forward Telegram relay bot
(`src/config.js`, `src/storage.js`, `src/ai.js`, `src/i18n.js`,
`src/handlers/guest.js`, `src/handlers/admin.js`).

Modelling conventions:
* The Cloudflare KV namespace is modelled as a record with one field per
  key prefix (`relay:`, `blocked:`, `block-info:`, `counter:`,
  `ratelimit:`, `trust:`, `modcache:`, `lang:`, `admin-msg:`,
  `guest:latest:`); the prefixes are pairwise distinct in the source, so
  the namespaces never collide.
* Values that the source stores as decimal strings (counters, trust
  scores) are modelled as the numbers they denote; JSON records
  (rate-limit windows, block info, relays) are modelled as structures.
* Every storage / handler operation additionally returns the list of
  side effects (KV reads and writes with their TTLs, Telegram sends and
  forwards, moderation API calls) it performs, in program order.
* Timestamps (`Date.now()`) are modelled as `Int` milliseconds.
* JS strings are Lean `String`s; where the source inspects code units
  (`trim`, `toUpperCase`, `includes`) we work on the list of code
  points, which agrees with UTF-16 on the characters involved.
* External calls (`fetch` of the Gemini API, image downloads, Telegram
  API results) are supplied by oracle parameters describing each
  attempt's outcome, mirroring the `try`/`catch` structure of the code.
-/

-- ============================================
-- config.js constants
-- ============================================

/-- Gemini model name (config.js). -/
def GEMINI_MODEL : String := "gemini-flash-lite-latest"

/-- Enable AI content filtering (config.js). -/
def ENABLE_FILTER : Bool := true

/-- Auto-block users who send unsafe content (config.js). -/
def AUTO_BLOCK : Bool := true

/-- Default language for new users (config.js). -/
def LANGUAGE : String := "en"

/-- Maximum requests per rate-limit window (config.js). -/
def RATE_LIMIT_MAX_REQUESTS : Nat := 10

/-- Rate-limit window length in milliseconds (config.js). -/
def RATE_LIMIT_WINDOW_MS : Int := 60000

/-- Messages needed to become trusted (config.js). -/
def TRUST_THRESHOLD : Nat := 3

/-- Minimum content length for moderation caching (config.js). -/
def MOD_CACHE_MIN_LENGTH : Nat := 5

/-- Moderation cache TTL in seconds (config.js). -/
def MOD_CACHE_TTL_SECONDS : Nat := 86400

/-- Rate-limit record TTL in seconds (config.js). -/
def RATE_LIMIT_TTL_SECONDS : Nat := 120

-- ============================================
-- JS string primitives (code-point level)
-- ============================================

/-- Code points of a string (model of the JS code-unit view). -/
def strCodes (s : String) : List Nat := s.data.map Char.toNat

/-- Model of JS `String.prototype.toUpperCase` restricted to ASCII
letters, which is the accurate fragment for the moderation keyword
scan (`ai.js` looks for the ASCII word "UNSAFE"). -/
def upCode (n : Nat) : Nat := if 97 ≤ n ∧ n ≤ 122 then n - 32 else n

/-- White-space code points removed by JS `String.prototype.trim`
(ASCII white space plus the Unicode space separators, NEL omitted by
the regex class is included as 0x85 is not — we follow the `\s` set). -/
def isWsCode (n : Nat) : Bool :=
  n == 9 || n == 10 || n == 11 || n == 12 || n == 13 || n == 32 ||
  n == 160 || n == 5760 || (8192 ≤ n && n ≤ 8202) || n == 8232 ||
  n == 8233 || n == 8239 || n == 8287 || n == 12288 || n == 65279

/-- White-space test on characters. -/
def isWsChar (c : Char) : Bool := isWsCode c.toNat

/-- Model of JS `trim` on a code-point list: drop white space at both
ends. -/
def trimCodes (l : List Nat) : List Nat :=
  ((l.dropWhile isWsCode).reverse.dropWhile isWsCode).reverse

/-- Model of JS `trim` on strings (used on API keys and appeal text). -/
def strTrim (s : String) : String :=
  ⟨(((s.data.dropWhile isWsChar).reverse.dropWhile isWsChar).reverse)⟩

/-- Code points of the moderation keyword "UNSAFE". -/
def unsafeCodes : List Nat := [85, 78, 83, 65, 70, 69]

/-- Does `pat` occur as a contiguous block of `l`?  (model of JS
`String.prototype.includes`). -/
def listHasSub (pat : List Char) : List Char → Bool
  | [] => pat.isEmpty
  | c :: rest => pat.isPrefixOf (c :: rest) || listHasSub pat rest

/-- JS `s.includes(pat)`. -/
def strHasSub (s pat : String) : Bool := listHasSub pat.data s.data

/-- Model of JS `String.prototype.split` (single-character separator):
worker for `jsSplitChar`. -/
def splitChAux (sep : Char) : List Char → List Char → List (List Char)
  | [], acc => [acc.reverse]
  | c :: cs, acc =>
    if c = sep then acc.reverse :: splitChAux sep cs []
    else splitChAux sep cs (c :: acc)

/-- JS `s.split(sep)` for a one-character separator. -/
def jsSplitChar (sep : Char) (s : String) : List String :=
  (splitChAux sep s.data []).map (fun l => ⟨l⟩)

/-- Model of JS `String.prototype.replace` with a plain-string pattern:
replaces only the first occurrence.  Worker on code lists. -/
def replaceFirstAux (pat repl : List Char) : List Char → List Char
  | [] => []
  | c :: rest =>
    if pat.isPrefixOf (c :: rest) then repl ++ (c :: rest).drop pat.length
    else c :: replaceFirstAux pat repl rest

/-- JS `s.replace(pat, repl)` (first occurrence only). -/
def jsReplaceFirst (s pat repl : String) : String :=
  ⟨replaceFirstAux pat.data repl.data s.data⟩

/-- JS `a || b` on an optional string (`undefined`/`null`/`""` are
falsy). -/
def jsOrStr (a : Option String) (b : String) : String :=
  match a with
  | some v => if v = "" then b else v
  | none => b

/-- `Math.ceil(a / b)` on integers for a positive divisor `b`
(`Int` division `/` is Euclidean division, i.e. floor for positive
divisors, and `ceil x = -floor (-x)`). -/
def jsCeilDiv (a b : Int) : Int := -((-a) / b)

-- ============================================
-- Data model (storage.js records)
-- ============================================

/-- A rate-limit window record, JSON `{windowStart, count}`. -/
structure RateWindow where
  windowStart : Int
  count : Nat
deriving DecidableEq, Repr

/-- A block-info record, JSON `{guestId, reason, blockedAt}`. -/
structure BlockData where
  guestId : String
  reason : String
  blockedAt : Int
deriving DecidableEq, Repr

/-- A relay record (storage.js `createRelay`). -/
structure Relay where
  id : String
  guestId : String
  guestUsername : String
  status : String
  createdAt : Int
  messageType : String
  preview : String
  updatedAt : Option Int := none
deriving DecidableEq, Repr

/-- Result of `checkRateLimit`. -/
structure RLResult where
  allowed : Bool
  remaining : Nat
  resetIn : Option Int := none
deriving DecidableEq, Repr

/-- Result of `getCachedModerationResult`. -/
structure CacheLookup where
  hit : Bool
  result : Option String
deriving DecidableEq, Repr

/-- Side effects performed by the modelled operations, in program
order.  KV writes record the value written and, where the source passes
`expirationTtl`, the TTL in seconds. -/
inductive Effect where
  | getBlockedE (g : String)
  | putBlockedE (g : String)
  | delBlockedE (g : String)
  | getBlockInfoE (g : String)
  | putBlockInfoE (g : String)
  | delBlockInfoE (g : String)
  | getCounterE (name : String)
  | putCounterE (name : String) (v : Nat)
  | getRateLimitE (g : String)
  | putRateLimitE (g : String) (w : RateWindow) (ttlSeconds : Nat)
  | getTrustE (g : String)
  | putTrustE (g : String) (v : Nat)
  | delTrustE (g : String)
  | getModCacheE (h : String)
  | putModCacheE (h : String) (v : String) (ttlSeconds : Nat)
  | getLangE (u : String)
  | putLangE (u : String) (l : String)
  | putRelayE (id : String)
  | putGuestLatestE (g : String)
  | getAdminMsgE (m : Nat)
  | putAdminMsgE (m : Nat)
  | sendMessageE (chat : String) (text : String)
  | forwardMessageE (toChat : String) (fromChat : String) (msgId : Nat)
  | answerCallbackE (qid : String)
  | aiCallE
  | getFileE (what : String)
deriving DecidableEq, Repr

/-- Effect traces. -/
abbrev Trace := List Effect

/-- The KV namespace, one field per key prefix of `storage.js`. -/
structure KVStore where
  relay : String → Option Relay
  guestLatest : String → Option String
  adminMsg : Nat → Option String
  blocked : String → Option String
  blockInfo : String → Option BlockData
  counter : String → Option Nat
  ratelimit : String → Option RateWindow
  trust : String → Option Nat
  modcache : String → Option String
  lang : String → Option String

/-- Point update of a keyed field. -/
def upd {κ α : Type} [DecidableEq κ] (f : κ → Option α) (k : κ)
    (v : Option α) : κ → Option α :=
  fun x => if x = k then v else f x

/-- The empty store (every key absent). -/
def emptyKV : KVStore :=
  { relay := fun _ => none, guestLatest := fun _ => none,
    adminMsg := fun _ => none, blocked := fun _ => none,
    blockInfo := fun _ => none, counter := fun _ => none,
    ratelimit := fun _ => none, trust := fun _ => none,
    modcache := fun _ => none, lang := fun _ => none }

-- ============================================
-- storage.js operations
-- ============================================

/-- storage.js `isGuestBlocked`: `status === "true"`. -/
def isGuestBlocked (s : KVStore) (g : String) : Bool × Trace :=
  (match s.blocked g with
   | some v => v == "true"
   | none => false,
   [.getBlockedE g])

/-- storage.js `incrementCounter`: `parseInt(get || "0") + 1`. -/
def incrementCounter (s : KVStore) (name : String) : KVStore × Trace :=
  let current := (s.counter name).getD 0
  ({ s with counter := upd s.counter name (some (current + 1)) },
   [.getCounterE name, .putCounterE name (current + 1)])

/-- storage.js `decrementCounter`: saturating at zero (no write at 0). -/
def decrementCounter (s : KVStore) (name : String) : KVStore × Trace :=
  let current := (s.counter name).getD 0
  if 0 < current then
    ({ s with counter := upd s.counter name (some (current - 1)) },
     [.getCounterE name, .putCounterE name (current - 1)])
  else (s, [.getCounterE name])

/-- storage.js `setGuestBlocked`: on block, write the flag and the
block-info record, bump the total-blocked counter and delete the trust
score; on unblock, delete flag and info and decrement the counter. -/
def setGuestBlocked (now : Int) (s : KVStore) (g : String)
    (blocked : Bool) (reason : String) : KVStore × Trace :=
  if blocked then
    let s1 := { s with blocked := upd s.blocked g (some "true") }
    let s2 := { s1 with blockInfo := upd s1.blockInfo g (some ⟨g, reason, now⟩) }
    let (s3, tr3) := incrementCounter s2 "total-blocked"
    let s4 := { s3 with trust := upd s3.trust g none }
    (s4, [.putBlockedE g, .putBlockInfoE g] ++ tr3 ++ [.delTrustE g])
  else
    let s1 := { s with blocked := upd s.blocked g none,
                       blockInfo := upd s.blockInfo g none }
    let (s2, tr2) := decrementCounter s1 "total-blocked"
    (s2, [.delBlockedE g, .delBlockInfoE g] ++ tr2)

/-- storage.js `getBlockInfo`. -/
def getBlockInfo (s : KVStore) (g : String) : Option BlockData × Trace :=
  (s.blockInfo g, [.getBlockInfoE g])

/-- storage.js `checkRateLimit` (fixed window). -/
def checkRateLimit (now : Int) (g : String) (s : KVStore) :
    RLResult × KVStore × Trace :=
  match s.ratelimit g with
  | none =>
    -- new window, this request counted as #1
    (⟨true, RATE_LIMIT_MAX_REQUESTS - 1, none⟩,
     { s with ratelimit := upd s.ratelimit g (some ⟨now, 1⟩) },
     [.getRateLimitE g, .putRateLimitE g ⟨now, 1⟩ RATE_LIMIT_TTL_SECONDS])
  | some w =>
    if RATE_LIMIT_WINDOW_MS < now - w.windowStart then
      -- expired window: start a new one
      (⟨true, RATE_LIMIT_MAX_REQUESTS - 1, none⟩,
       { s with ratelimit := upd s.ratelimit g (some ⟨now, 1⟩) },
       [.getRateLimitE g, .putRateLimitE g ⟨now, 1⟩ RATE_LIMIT_TTL_SECONDS])
    else if RATE_LIMIT_MAX_REQUESTS ≤ w.count then
      -- rate limited: no write in this branch
      (⟨false, 0, some (jsCeilDiv (w.windowStart + RATE_LIMIT_WINDOW_MS - now) 1000)⟩,
       s, [.getRateLimitE g])
    else
      -- increment counter
      (⟨true, RATE_LIMIT_MAX_REQUESTS - w.count - 1, none⟩,
       { s with ratelimit := upd s.ratelimit g (some ⟨w.windowStart, w.count + 1⟩) },
       [.getRateLimitE g,
        .putRateLimitE g ⟨w.windowStart, w.count + 1⟩ RATE_LIMIT_TTL_SECONDS])

/-- Iterated `checkRateLimit` for one guest at the given call times. -/
def runRL (g : String) : List Int → KVStore → List RLResult × KVStore
  | [], s => ([], s)
  | t :: ts, s =>
    let r := checkRateLimit t g s
    let rest := runRL g ts r.2.1
    (r.1 :: rest.1, rest.2)

/-- storage.js `getTrustScore`: `parseInt(get || "0")`. -/
def getTrustScore (s : KVStore) (g : String) : Nat × Trace :=
  ((s.trust g).getD 0, [.getTrustE g])

/-- storage.js `incrementTrustScore`: write `current + 1` only while
below the threshold. -/
def incrementTrustScore (s : KVStore) (g : String) : KVStore × Trace :=
  let current := (s.trust g).getD 0
  if current < TRUST_THRESHOLD then
    ({ s with trust := upd s.trust g (some (current + 1)) },
     [.getTrustE g, .putTrustE g (current + 1)])
  else (s, [.getTrustE g])

/-- storage.js `resetTrustScore`: delete the stored value. -/
def resetTrustScore (s : KVStore) (g : String) : KVStore × Trace :=
  ({ s with trust := upd s.trust g none }, [.delTrustE g])

/-- storage.js `isUserTrusted`: `score >= TRUST_THRESHOLD`. -/
def isUserTrusted (s : KVStore) (g : String) : Bool × Trace :=
  (decide (TRUST_THRESHOLD ≤ (s.trust g).getD 0), [.getTrustE g])

/-- storage.js `setUserTrusted`: write the threshold directly. -/
def setUserTrusted (s : KVStore) (g : String) : KVStore × Trace :=
  ({ s with trust := upd s.trust g (some TRUST_THRESHOLD) },
   [.putTrustE g TRUST_THRESHOLD])

/-- storage.js `getCachedModerationResult`.  The SHA-256 content hash is
abstracted as a parameter `hash`; only `hash content = hash content` is
ever needed.  Stored format: `"SAFE"` or `"UNSAFE:" ++ reason`. -/
def getCachedModerationResult (hash : String → String) (s : KVStore)
    (content : String) : CacheLookup × Trace :=
  if content = "" ∨ content.length < MOD_CACHE_MIN_LENGTH then
    (⟨false, none⟩, [])
  else
    let h := hash content
    match s.modcache h with
    | none => (⟨false, none⟩, [.getModCacheE h])
    | some cached =>
      if cached = "SAFE" then (⟨true, none⟩, [.getModCacheE h])
      else (⟨true, some (jsReplaceFirst cached "UNSAFE:" "")⟩,
            [.getModCacheE h])

/-- storage.js `cacheModerationResult`.  `result ? "UNSAFE:"+result :
"SAFE"` — note that an empty reason string is falsy in JS and is stored
as `"SAFE"`. -/
def cacheModerationResult (hash : String → String) (s : KVStore)
    (content : String) (result : Option String) : KVStore × Trace :=
  if content = "" ∨ content.length < MOD_CACHE_MIN_LENGTH then (s, [])
  else
    let h := hash content
    let value := match result with
      | some r => if r = "" then "SAFE" else "UNSAFE:" ++ r
      | none => "SAFE"
    ({ s with modcache := upd s.modcache h (some value) },
     [.putModCacheE h value MOD_CACHE_TTL_SECONDS])

/-- storage.js `getUserLanguage`. -/
def getUserLanguage (s : KVStore) (u : String) : Option String × Trace :=
  (s.lang u, [.getLangE u])

/-- storage.js `setUserLanguage`. -/
def setUserLanguage (s : KVStore) (u : String) (l : String) :
    KVStore × Trace :=
  ({ s with lang := upd s.lang u (some l) }, [.putLangE u l])

/-- storage.js `linkAdminMessage`. -/
def linkAdminMessage (s : KVStore) (adminMsgId : Nat) (relayId : String) :
    KVStore × Trace :=
  ({ s with adminMsg := upd s.adminMsg adminMsgId (some relayId) },
   [.putAdminMsgE adminMsgId])

-- ============================================
-- i18n.js
-- ============================================

/-- English message table (i18n.js), restricted to the keys reachable
from the modelled handlers. -/
def enMsgs (key : String) : Option String :=
  if key = "lang_select_prompt" then some "Select your language:"
  else if key = "lang_changed" then some "Language changed to English."
  else if key = "guest_welcome" then some "Hello. You can contact me via this bot."
  else if key = "guest_blocked" then some "You are blocked.\n\nUse /appeal to submit an appeal.\nTip: Reply to your blocked message with /appeal to attach evidence."
  else if key = "guest_not_blocked" then some "You are not blocked. No need to appeal."
  else if key = "guest_appeal_submitted" then some "Your appeal has been submitted. Please wait for admin review."
  else if key = "guest_appeal_accepted" then some "Your appeal has been accepted. You are now unbanned."
  else if key = "guest_appeal_rejected" then some "Your appeal has been rejected."
  else if key = "guest_rate_limited" then some "Too many messages. Please wait \x7bseconds\x7d seconds."
  else if key = "guest_message_blocked" then some "Message blocked.\nReason: \x7breason\x7d\n\nUse /appeal to submit an appeal.\nTip: Reply to this message with /appeal to attach evidence."
  else if key = "guest_error" then some "An error occurred. Please try again later."
  else if key = "appeal_title" then some "[APPEAL]\n"
  else if key = "appeal_from" then some "From: @\x7busername\x7d (\x7bguestId\x7d)\n"
  else if key = "appeal_blocked" then some "Blocked: \x7bdate\x7d\n"
  else if key = "appeal_reason" then some "Reason: \x7breason\x7d\n"
  else if key = "appeal_separator" then some "---\n"
  else if key = "appeal_message" then some "Appeal message: \x7bcontent\x7d"
  else if key = "appeal_no_message" then some "(No appeal message provided)"
  else if key = "appeal_accept_button" then some "Accept (Unban)"
  else if key = "appeal_reject_button" then some "Reject"
  else if key = "appeal_accepted" then some "Appeal accepted. Unbanned: \x7bguestId\x7d"
  else if key = "appeal_rejected" then some "Appeal rejected for: \x7bguestId\x7d"
  else if key = "unbanned" then some "Unbanned: \x7bguestId\x7d"
  else none

/-- Chinese message table (i18n.js), same keys. -/
def zhMsgs (key : String) : Option String :=
  if key = "lang_select_prompt" then some "请选择语言:"
  else if key = "lang_changed" then some "语言已切换为中文。"
  else if key = "guest_welcome" then some "你好，你可以通过这个机器人联系我。"
  else if key = "guest_blocked" then some "你已被封禁。\n\n使用 /appeal 提交申诉。\n提示: 回复被封禁的消息并发送 /appeal 可附加证据。"
  else if key = "guest_not_blocked" then some "你没有被封禁，无需申诉。"
  else if key = "guest_appeal_submitted" then some "你的申诉已提交，请等待管理员审核。"
  else if key = "guest_appeal_accepted" then some "你的申诉已通过，封禁已解除。"
  else if key = "guest_appeal_rejected" then some "你的申诉已被拒绝。"
  else if key = "guest_rate_limited" then some "发送过于频繁，请等待 \x7bseconds\x7d 秒。"
  else if key = "guest_message_blocked" then some "消息被拦截。\n原因: \x7breason\x7d\n\n使用 /appeal 提交申诉。\n提示: 回复此消息并发送 /appeal 可附加证据。"
  else if key = "guest_error" then some "发生错误，请稍后重试。"
  else if key = "appeal_title" then some "[申诉]\n"
  else if key = "appeal_from" then some "来自: @\x7busername\x7d (\x7bguestId\x7d)\n"
  else if key = "appeal_blocked" then some "封禁时间: \x7bdate\x7d\n"
  else if key = "appeal_reason" then some "封禁原因: \x7breason\x7d\n"
  else if key = "appeal_separator" then some "---\n"
  else if key = "appeal_message" then some "申诉内容: \x7bcontent\x7d"
  else if key = "appeal_no_message" then some "(未提供申诉内容)"
  else if key = "appeal_accept_button" then some "通过 (解封)"
  else if key = "appeal_reject_button" then some "拒绝"
  else if key = "appeal_accepted" then some "申诉已通过，已解封: \x7bguestId\x7d"
  else if key = "appeal_rejected" then some "申诉已拒绝: \x7bguestId\x7d"
  else if key = "unbanned" then some "已解封: \x7bguestId\x7d"
  else none

/-- i18n.js `defaultLanguage = LANGUAGE || "en"`. -/
def defaultLanguage : String := if LANGUAGE = "" then "en" else LANGUAGE

/-- i18n.js `getDefaultLanguage`. -/
def getDefaultLanguage : String := defaultLanguage

/-- The table for a language code, `none` when unknown
(`messages[useLang]`). -/
def msgTableOf (lang : String) : Option (String → Option String) :=
  if lang = "en" then some enMsgs
  else if lang = "zh" then some zhMsgs
  else none

/-- i18n.js `t(key, vars, lang)`: table lookup with fallback to English
and to the key itself, then `\x7bname\x7d` substitution (the source
replaces all occurrences via a global regex, as `String.replace`
does). -/
def tMsg (key : String) (vars : List (String × String)) (lang : String) :
    String :=
  let useLang := if lang = "" then defaultLanguage else lang
  let langMessages := (msgTableOf useLang).getD enMsgs
  let base := match langMessages key with
    | some v => v
    | none => match enMsgs key with
      | some v => v
      | none => key
  vars.foldl (fun msg p => msg.replace ("\x7b" ++ p.1 ++ "\x7d") p.2) base

/-- i18n.js / handlers `getLang`: stored preference or the default. -/
def getLang (s : KVStore) (u : String) : String × Trace :=
  let r := getUserLanguage s u
  (jsOrStr r.1 getDefaultLanguage, r.2)

-- ============================================
-- ai.js: moderation engine
-- ============================================

/-- Outcome of one `fetch` of the Gemini endpoint: a non-success HTTP
response, a thrown transport exception, or a success whose JSON may or
may not carry `candidates[0].content.parts[0].text`. -/
inductive ApiOutcome where
  | httpFail (status : Nat)
  | thrown
  | ok (respText : Option String)
deriving DecidableEq

/-- Is this outcome a request failure (non-success response or
exception)? -/
def isApiFailure : ApiOutcome → Bool
  | .httpFail _ => true
  | .thrown => true
  | .ok _ => false

/-- ai.js success-branch classification:
`text?.trim().toUpperCase()` scanned for the substring "UNSAFE"; any
match yields the fixed string, never the model output. -/
def classifyResponse (respText : Option String) : Option String :=
  match respText with
  | none => none
  | some t =>
    let r := (trimCodes (strCodes t)).map upCode
    if r ≠ [] ∧ unsafeCodes <:+: r then some "Content policy violation"
    else none

/-- Request payload (the base64 re-encoding of image bytes is an
injective wire encoding and is kept as the raw byte list). -/
inductive GeminiPayload where
  | textPayload (text : String)
  | imagePayload (mime : String) (bytes : List Nat) (caption : Option String)
deriving DecidableEq

/-- ai.js `getNextApiKey` on a key array: `keys[idx % keys.length]`,
then the process-wide index advances.  (The source throws on an empty
array; callers only reach it with the nonempty array produced by
`parseApiKeys`, and with an empty keyset the retry loop performs zero
iterations and never selects a key.) -/
def getNextApiKey (keys : List String) (idx : Nat) : String × Nat :=
  (keys.getD (idx % keys.length) "", idx + 1)

/-- ai.js `callGeminiApi` retry loop.  `rem` is the number of loop
iterations left (`maxRetries - attempt`), recursion is on `rem`; the
`attempt < maxRetries - 1` test is the source's continue/return-null
choice.  Returns the verdict, the keys used per attempt in order, and
the new rotation index. -/
def callGeminiLoop (outcomes : Nat → ApiOutcome) (keys : List String)
    (maxRetries : Nat) : Nat → Nat → Nat → Option String × List String × Nat
  | 0, _, idx => (none, [], idx)
  | rem + 1, attempt, idx =>
    let sel := getNextApiKey keys idx
    match outcomes attempt with
    | .httpFail _ =>
      if attempt < maxRetries - 1 then
        let rest := callGeminiLoop outcomes keys maxRetries rem (attempt + 1) sel.2
        (rest.1, sel.1 :: rest.2.1, rest.2.2)
      else (none, [sel.1], sel.2)
    | .thrown =>
      if attempt < maxRetries - 1 then
        let rest := callGeminiLoop outcomes keys maxRetries rem (attempt + 1) sel.2
        (rest.1, sel.1 :: rest.2.1, rest.2.2)
      else (none, [sel.1], sel.2)
    | .ok t => (classifyResponse t, [sel.1], sel.2)

/-- ai.js `callGeminiApi(payload, keys, maxRetries, model)`. -/
def callGeminiApi (outcomes : Nat → ApiOutcome) (_payload : GeminiPayload)
    (keys : List String) (maxRetries : Nat) (idx : Nat) :
    Option String × List String × Nat :=
  callGeminiLoop outcomes keys maxRetries maxRetries 0 idx

/-- `parseApiKeys` result: a bare string or an array of keys. -/
inductive ApiKeysVal where
  | single (k : String)
  | multiple (ks : List String)
deriving DecidableEq

/-- ai.js `parseApiKeys`: `null` for a falsy input, comma-split (with
per-key trim) when a comma occurs, the bare string otherwise. -/
def parseApiKeys (keyString : String) : Option ApiKeysVal :=
  if keyString = "" then none
  else if strHasSub keyString "," then
    some (.multiple ((jsSplitChar ',' keyString).map strTrim))
  else some (.single keyString)

/-- `Array.isArray(apiKeys) ? apiKeys : [apiKeys]`. -/
def keysetOf : ApiKeysVal → List String
  | .single k => [k]
  | .multiple ks => ks

/-- ai.js `checkContentSafety`: guard, then the retry loop with
`maxRetries = keys.length`. -/
def checkContentSafety (text : String) (apiKeys : Option ApiKeysVal)
    (outcomes : Nat → ApiOutcome) (idx : Nat) :
    Option String × List String × Nat :=
  match apiKeys with
  | none => (none, [], idx)
  | some ak =>
    if text = "" ∨ text.length < 2 then (none, [], idx)
    else
      let keys := keysetOf ak
      callGeminiApi outcomes (.textPayload text) keys keys.length idx

/-- Result of the image `fetch`. -/
structure ImageResp where
  ok : Bool
  bytes : List Nat
deriving DecidableEq

/-- ai.js MIME detection: URL suffix first, then magic bytes, default
JPEG. -/
def detectMime (url : String) (bytes : List Nat) : String :=
  if strHasSub url ".png" then "image/png"
  else if strHasSub url ".gif" then "image/gif"
  else if strHasSub url ".webp" then "image/webp"
  else if bytes.getD 0 0 == 0x89 && bytes.getD 1 0 == 0x50 then "image/png"
  else if bytes.getD 0 0 == 0x47 && bytes.getD 1 0 == 0x49 then "image/gif"
  else if bytes.getD 0 0 == 0x52 && bytes.getD 1 0 == 0x49 then "image/webp"
  else "image/jpeg"

/-- ai.js `checkImageSafety`: guard, download (a failed or thrown fetch
yields `null` via the catch), MIME detection, then the retry loop. -/
def checkImageSafety (imageUrl : Option String)
    (apiKeys : Option ApiKeysVal) (caption : Option String)
    (fetchResult : Option ImageResp) (outcomes : Nat → ApiOutcome)
    (idx : Nat) : Option String × List String × Nat :=
  match imageUrl, apiKeys with
  | none, _ => (none, [], idx)
  | _, none => (none, [], idx)
  | some url, some ak =>
    if url = "" then (none, [], idx)
    else
      let keys := keysetOf ak
      match fetchResult with
      | none => (none, [], idx)
      | some resp =>
        if resp.ok = false then (none, [], idx)
        else
          let mime := detectMime url resp.bytes
          callGeminiApi outcomes (.imagePayload mime resp.bytes caption)
            keys keys.length idx

-- ============================================
-- handlers/guest.js (first definition in the file, lines 1-326)
-- ============================================

/-- The fields of an inbound Telegram message that the guest handler
inspects.  `chatId` is `message.chat.id.toString()`; `hasPhoto` means
`message.photo` is present with at least one size. -/
structure Msg where
  chatId : String
  msgId : Nat
  text : Option String
  caption : Option String
  hasPhoto : Bool
  hasSticker : Bool
  stickerAnimated : Bool
  fromUsername : Option String
  fromFirstName : Option String
  replyTo : Option Nat
deriving DecidableEq

/-- Environment bindings used by the handlers.  `geminiApiKey` is the
raw `ENV_GEMINI_API_KEY` string (`none` when unset); `hash` abstracts
the SHA-256 content digest of `storage.js`. -/
structure Env where
  adminUid : String
  geminiApiKey : Option String
  hash : String → String

/-- Oracle inputs for the external calls a single guest-message
invocation can make: the clock, the random relay-id suffix, per-attempt
Gemini outcomes for the text / photo / sticker checks, the
`getFile`-derived download URLs (`none` = failure), the image
downloads, the forward result, and the process-wide key-rotation index
at entry. -/
structure Oracles where
  now : Int
  randSuffix : String
  textOutcomes : Nat → ApiOutcome
  imageOutcomes : Nat → ApiOutcome
  stickerOutcomes : Nat → ApiOutcome
  imageFileUrl : Option String
  stickerFileUrl : Option String
  imageFetch : Option ImageResp
  stickerFetch : Option ImageResp
  fwdOk : Bool
  fwdMsgId : Nat
  aiStartIdx : Nat

/-- `new Date(ms).toLocaleString()` — locale-dependent formatting,
modelled as the numeric timestamp rendered as a string (no claim
depends on the exact text). -/
def jsDateToLocaleString (ms : Int) : String := toString ms

/-- storage.js `createRelay`: build the record, store it, update the
guest's latest-relay pointer and bump the `total-relays` counter. -/
def createRelay (now : Int) (rand : String) (s : KVStore) (g : String)
    (m : Msg) : Relay × KVStore × Trace :=
  let relay : Relay :=
    { id := "R-" ++ toString now ++ "-" ++ rand,
      guestId := g,
      guestUsername := jsOrStr m.fromUsername (jsOrStr m.fromFirstName "Unknown"),
      status := "open",
      createdAt := now,
      messageType := if m.text.getD "" ≠ "" then "text"
        else if m.hasPhoto then "photo" else "other",
      preview := (jsOrStr m.text (jsOrStr m.caption "")).take 100,
      updatedAt := none }
  let s1 := { s with relay := upd s.relay relay.id (some relay) }
  let s2 := { s1 with guestLatest := upd s1.guestLatest g (some relay.id) }
  let r3 := incrementCounter s2 "total-relays"
  (relay, r3.1, [.putRelayE relay.id, .putGuestLatestE g] ++ r3.2)

/-- guest.js `handleLangCommand`: the language-selection prompt (the
inline keyboard markup is not part of the effect model). -/
def handleLangCommand (guestId lang : String) : Trace :=
  [.sendMessageE guestId (tMsg "lang_select_prompt" [] lang)]

/-- guest.js `handleStartCommand`. -/
def handleStartCommand (guestId lang : String) : Trace :=
  [.sendMessageE guestId (tMsg "guest_welcome" [] lang)]

/-- guest.js `handleAppealCommand`: compose the appeal notice for the
admin (in the admin's language), forward the replied-to evidence if
any, and acknowledge to the guest. -/
def handleAppealCommand (m : Msg) (env : Env) (s : KVStore) :
    KVStore × Trace :=
  let guestId := m.chatId
  let username := jsOrStr m.fromUsername (jsOrStr m.fromFirstName "Unknown")
  let rg := getLang s guestId
  let ra := getLang s env.adminUid
  let guestLang := rg.1
  let adminLang := ra.1
  let rb := getBlockInfo s guestId
  let blockReason := match rb.1 with
    | some b => if b.reason = "" then "Unknown" else b.reason
    | none => "Unknown"
  let blockDate := match rb.1 with
    | some b => if b.blockedAt = 0 then "Unknown"
        else jsDateToLocaleString b.blockedAt
    | none => "Unknown"
  let appealText :=
    tMsg "appeal_title" [] adminLang ++
    tMsg "appeal_from" [("username", username), ("guestId", guestId)] adminLang ++
    tMsg "appeal_blocked" [("date", blockDate)] adminLang ++
    tMsg "appeal_reason" [("reason", blockReason)] adminLang ++
    tMsg "appeal_separator" [] adminLang
  let appealContent := match m.text with
    | some t => strTrim (jsReplaceFirst t "/appeal" "")
    | none => ""
  let appealText2 := appealText ++
    (if appealContent = "" then tMsg "appeal_no_message" [] adminLang
     else tMsg "appeal_message" [("content", appealContent)] adminLang)
  let trFwd : Trace := match m.replyTo with
    | some rid => [.forwardMessageE env.adminUid guestId rid]
    | none => []
  (s, rg.2 ++ ra.2 ++ rb.2 ++ [.sendMessageE env.adminUid appealText2] ++
      trFwd ++
      [.sendMessageE guestId (tMsg "guest_appeal_submitted" [] guestLang)])

/-- guest.js photo then sticker moderation (the tail of
`checkMessageContent` after the text check): short-circuits on the
first UNSAFE verdict, skips animated/video stickers and failed
downloads.  Returns the verdict, the effects, and the new rotation
index. -/
def imageStickerChecks (m : Msg) (o : Oracles) (apiKeys : Option ApiKeysVal)
    (idx : Nat) : Option String × Trace × Nat :=
  let step1 : Option String × Trace × Nat :=
    if m.hasPhoto then
      match o.imageFileUrl with
      | none => (none, [.getFileE "photo"], idx)
      | some url =>
        let r := checkImageSafety (some url) apiKeys m.caption o.imageFetch
          o.imageOutcomes idx
        (r.1, [.getFileE "photo"] ++ r.2.1.map (fun _ => Effect.aiCallE), r.2.2)
    else (none, [], idx)
  match step1.1 with
  | some verdict => (some verdict, step1.2.1, step1.2.2)
  | none =>
    if m.hasSticker then
      if m.stickerAnimated then (none, step1.2.1, step1.2.2)
      else
        match o.stickerFileUrl with
        | none => (none, step1.2.1 ++ [.getFileE "sticker"], step1.2.2)
        | some url =>
          let r := checkImageSafety (some url) apiKeys none o.stickerFetch
            o.stickerOutcomes step1.2.2
          (r.1, step1.2.1 ++ [.getFileE "sticker"] ++
                r.2.1.map (fun _ => Effect.aiCallE), r.2.2)
    else (none, step1.2.1, step1.2.2)

/-- guest.js `checkMessageContent` (first version): text first with
cache lookup / store — a cache hit returns immediately — then photo,
then sticker. -/
def checkMessageContent (m : Msg) (env : Env) (o : Oracles)
    (apiKeys : Option ApiKeysVal) (s : KVStore) (idx : Nat) :
    Option String × KVStore × Trace × Nat :=
  let textContent := jsOrStr m.text (jsOrStr m.caption "")
  if textContent ≠ "" then
    let rc := getCachedModerationResult env.hash s textContent
    if rc.1.hit then (rc.1.result, s, rc.2, idx)
    else
      let ra := checkContentSafety textContent apiKeys o.textOutcomes idx
      let trAi := ra.2.1.map (fun _ => Effect.aiCallE)
      let rs := cacheModerationResult env.hash s textContent ra.1
      match ra.1 with
      | some verdict => (some verdict, rs.1, rc.2 ++ trAi ++ rs.2, ra.2.2)
      | none =>
        let ri := imageStickerChecks m o apiKeys ra.2.2
        (ri.1, rs.1, rc.2 ++ trAi ++ rs.2 ++ ri.2.1, ri.2.2)
  else
    let ri := imageStickerChecks m o apiKeys idx
    (ri.1, s, ri.2.1, ri.2.2)

/-- guest.js `handleUnsafeContent`: bump `ai-blocks`, auto-block when
configured, and notify the guest with the verdict reason. -/
def handleUnsafeContent (now : Int) (guestId : String)
    (filterResult : String) (lang : String) (s : KVStore) :
    KVStore × Trace :=
  let r1 := incrementCounter s "ai-blocks"
  let r2 := if AUTO_BLOCK then
      setGuestBlocked now r1.1 guestId true ("AI Filter: " ++ filterResult)
    else (r1.1, [])
  (r2.1, r1.2 ++ r2.2 ++
    [.sendMessageE guestId
      (tMsg "guest_message_blocked" [("reason", filterResult)] lang)])

/-- The relay-and-forward tail of `handleGuestMessage`: create the
relay, forward to the admin, and on a successful forward link the
admin-side message id to the relay. -/
def relayAndForward (m : Msg) (env : Env) (o : Oracles) (s : KVStore)
    (acc : Trace) : KVStore × Trace :=
  let rc := createRelay o.now o.randSuffix s m.chatId m
  let trF : Trace := [.forwardMessageE env.adminUid m.chatId m.msgId]
  if o.fwdOk then
    let rl := linkAdminMessage rc.2.1 o.fwdMsgId rc.1.id
    (rl.1, acc ++ rc.2.2 ++ trF ++ rl.2)
  else (rc.2.1, acc ++ rc.2.2 ++ trF)

/-- Is `ENV_GEMINI_API_KEY` set and truthy? -/
def geminiKeySet (env : Env) : Bool :=
  match env.geminiApiKey with
  | some k => k ≠ ""
  | none => false

/-- guest.js `handleGuestMessage` (first version): block status →
command routing (`/lang`, `/appeal`, blocked gate, `/start`) → rate
limit → trust check → moderation → relay and forward.  Total model of
the handler body; the top-level try/catch is unreachable here since
every modelled step is total. -/
def handleGuestMessage (m : Msg) (env : Env) (o : Oracles) (s : KVStore) :
    KVStore × Trace :=
  let guestId := m.chatId
  let rl0 := getLang s guestId
  let lang := rl0.1
  let text := m.text.getD ""
  let rb := isGuestBlocked s guestId
  let blocked := rb.1
  let tr0 := rl0.2 ++ rb.2
  if text = "/lang" then (s, tr0 ++ handleLangCommand guestId lang)
  else if text.startsWith "/appeal" then
    if blocked = false then
      (s, tr0 ++ [.sendMessageE guestId (tMsg "guest_not_blocked" [] lang)])
    else
      let ra := handleAppealCommand m env s
      (ra.1, tr0 ++ ra.2)
  else if blocked then
    (s, tr0 ++ [.sendMessageE guestId (tMsg "guest_blocked" [] lang)])
  else if text = "/start" then (s, tr0 ++ handleStartCommand guestId lang)
  else
    let rr := checkRateLimit o.now guestId s
    if rr.1.allowed = false then
      (rr.2.1, tr0 ++ rr.2.2 ++
        [.sendMessageE guestId
          (tMsg "guest_rate_limited"
            [("seconds", toString ((rr.1.resetIn).getD 0))] lang)])
    else
      if ENABLE_FILTER && geminiKeySet env then
        let rt := isUserTrusted rr.2.1 guestId
        if rt.1 then relayAndForward m env o rr.2.1 (tr0 ++ rr.2.2 ++ rt.2)
        else
          let apiKeys := parseApiKeys (env.geminiApiKey.getD "")
          let rm := checkMessageContent m env o apiKeys rr.2.1 o.aiStartIdx
          match rm.1 with
          | some verdict =>
            let ru := handleUnsafeContent o.now guestId verdict lang rm.2.1
            (ru.1, tr0 ++ rr.2.2 ++ rt.2 ++ rm.2.2.1 ++ ru.2)
          | none =>
            let ri := incrementTrustScore rm.2.1 guestId
            relayAndForward m env o ri.1
              (tr0 ++ rr.2.2 ++ rt.2 ++ rm.2.2.1 ++ ri.2)
      else relayAndForward m env o rr.2.1 (tr0 ++ rr.2.2)

-- ============================================
-- handlers/admin.js `handleCallbackQuery` (the duplicated definition
-- in guest.js lines 1024-1089 behaves identically on every modelled
-- path)
-- ============================================

/-- The fields of a callback query the handler inspects; `fromId` is
`query.from.id.toString()`. -/
structure CbQuery where
  id : String
  fromId : String
  data : String
deriving DecidableEq

/-- admin.js `handleCallbackQuery`: acknowledge, then dispatch on the
colon-split action (`lang`, `appeal`, `unban`).  The language branch
writes the preference only when the caller clicked their own
keyboard. -/
def handleCallbackQuery (now : Int) (q : CbQuery) (env : Env)
    (s : KVStore) : KVStore × Trace :=
  let parts := jsSplitChar ':' q.data
  let action := parts.getD 0 ""
  let callerId := q.fromId
  let trAck : Trace := [.answerCallbackE q.id]
  if action = "lang" then
    let langPart := parts.getD 1 ""
    let userId := parts.getD 2 ""
    if callerId ≠ userId then (s, trAck)
    else
      let rs := setUserLanguage s userId langPart
      (rs.1, trAck ++ rs.2 ++
        [.sendMessageE userId (tMsg "lang_changed" [] langPart)])
  else
    let rl := getLang s callerId
    let lang := rl.1
    if action = "appeal" then
      let decision := parts.getD 1 ""
      let guestId := parts.getD 2 ""
      let rgl := getLang s guestId
      let guestLang := rgl.1
      if decision = "accept" then
        let ru := setGuestBlocked now s guestId false "Manual"
        (ru.1, trAck ++ rl.2 ++ rgl.2 ++ ru.2 ++
          [.sendMessageE env.adminUid
            (tMsg "appeal_accepted" [("guestId", guestId)] lang),
           .sendMessageE guestId (tMsg "guest_appeal_accepted" [] guestLang)])
      else if decision = "reject" then
        (s, trAck ++ rl.2 ++ rgl.2 ++
          [.sendMessageE env.adminUid
            (tMsg "appeal_rejected" [("guestId", guestId)] lang),
           .sendMessageE guestId (tMsg "guest_appeal_rejected" [] guestLang)])
      else (s, trAck ++ rl.2 ++ rgl.2)
    else if action = "unban" then
      let guestId := parts.getD 1 ""
      let ru := setGuestBlocked now s guestId false "Manual"
      (ru.1, trAck ++ rl.2 ++ ru.2 ++
        [.sendMessageE env.adminUid (tMsg "unbanned" [("guestId", guestId)] lang)])
    else (s, trAck ++ rl.2)

-- ============================================
-- Effect classification predicates
-- ============================================

/-- Is this a Telegram send? -/
def Effect.isSendE : Effect → Bool
  | .sendMessageE _ _ => true
  | _ => false

/-- Is this a rate-limit store access (read or write)? -/
def Effect.isRateLimitAccess : Effect → Bool
  | .getRateLimitE _ => true
  | .putRateLimitE _ _ _ => true
  | _ => false

/-- Is this a moderation-cache access (read or write)? -/
def Effect.isModCacheAccess : Effect → Bool
  | .getModCacheE _ => true
  | .putModCacheE _ _ _ => true
  | _ => false

/-- Is this a moderation API call? -/
def Effect.isModerationCall : Effect → Bool
  | .aiCallE => true
  | _ => false

/-- Is this a trust-score write (put or delete)? -/
def Effect.isTrustWrite : Effect → Bool
  | .putTrustE _ _ => true
  | .delTrustE _ => true
  | _ => false

/-- Is this a relay-record write? -/
def Effect.isRelayWrite : Effect → Bool
  | .putRelayE _ => true
  | .putGuestLatestE _ => true
  | _ => false

/-- Is this a Telegram forward? -/
def Effect.isForwardE : Effect → Bool
  | .forwardMessageE _ _ _ => true
  | _ => false

-- ============================================
-- Theorems
-- ============================================

-- Shared helper lemmas

/-- Point update reads back the written value. -/
theorem upd_self {κ α : Type} [DecidableEq κ] (f : κ → Option α) (k : κ)
    (v : Option α) : upd f k v k = v := if_pos rfl

/-- Point update leaves other keys unchanged. -/
theorem upd_other {κ α : Type} [DecidableEq κ] (f : κ → Option α) (k x : κ)
    (v : Option α) (h : x ≠ k) : upd f k v x = f x := if_neg h

/-- Code-point list of `"UNSAFE:"`. -/
theorem unsafeTagData : "UNSAFE:".data = ['U','N','S','A','F','E',':'] := rfl

/-- `replace("UNSAFE:", "")` strips the tag the cache writer
prepended. -/
theorem jsReplaceFirst_unsafeTag (r : String) :
    jsReplaceFirst ("UNSAFE:" ++ r) "UNSAFE:" "" = r := by
  unfold jsReplaceFirst
  rw [String.data_append, unsafeTagData]
  rw [show "".data = ([] : List Char) from rfl]
  show (⟨replaceFirstAux ['U','N','S','A','F','E',':'] []
      ('U' :: 'N' :: 'S' :: 'A' :: 'F' :: 'E' :: ':' :: r.data)⟩ : String) = r
  rw [replaceFirstAux]
  simp [List.isPrefixOf]

/-- The UNSAFE-tagged cache value is never the SAFE sentinel. -/
theorem unsafeTag_ne_safe (r : String) : ("UNSAFE:" ++ r) ≠ "SAFE" := by
  intro h
  have h2 := congrArg String.length h
  rw [String.length_append] at h2
  rw [show ("UNSAFE:" : String).length = 7 from rfl,
      show ("SAFE" : String).length = 4 from rfl] at h2
  omega

/-- A string of length at least `MOD_CACHE_MIN_LENGTH` is nonempty and
passes the cache gate. -/
theorem cache_gate_passes {content : String}
    (h : MOD_CACHE_MIN_LENGTH ≤ content.length) :
    ¬(content = "" ∨ content.length < MOD_CACHE_MIN_LENGTH) := by
  rintro (he | hl)
  · subst he
    rw [show ("" : String).length = 0 from rfl] at h
    exact absurd h (by decide)
  · omega

/-- Claim C5: `setGuestBlocked(guestId, true, reason)` writes the block
flag and the block-info record (with the reason and timestamp)
together, and deletes the trust score, so that afterwards
`getTrustScore` returns 0 and `isUserTrusted` returns false. -/
theorem setGuestBlocked_block_resets_trust (now : Int) (s : KVStore)
    (g reason : String) :
    ((setGuestBlocked now s g true reason).1.blocked g = some "true") ∧
    ((setGuestBlocked now s g true reason).1.blockInfo g =
      some ⟨g, reason, now⟩) ∧
    ((setGuestBlocked now s g true reason).1.trust g = none) ∧
    ((getTrustScore (setGuestBlocked now s g true reason).1 g).1 = 0) ∧
    ((isUserTrusted (setGuestBlocked now s g true reason).1 g).1 = false) ∧
    (Effect.putBlockedE g ∈ (setGuestBlocked now s g true reason).2) ∧
    (Effect.putBlockInfoE g ∈ (setGuestBlocked now s g true reason).2) := by
  simp [setGuestBlocked, incrementCounter, getTrustScore, isUserTrusted,
    upd_self, TRUST_THRESHOLD]

/-- Claim C7: content shorter than `MOD_CACHE_MIN_LENGTH` is never
cached: the store call is a no-op (state unchanged, no effects) and
lookups before and after it both report a miss. -/
theorem shortContent_cache_noop (hash : String → String) (s : KVStore)
    (content : String) (result : Option String)
    (hlen : content.length < MOD_CACHE_MIN_LENGTH) :
    cacheModerationResult hash s content result = (s, []) ∧
    (getCachedModerationResult hash s content).1 = ⟨false, none⟩ ∧
    (getCachedModerationResult hash
      (cacheModerationResult hash s content result).1 content).1 =
      ⟨false, none⟩ := by
  have hc : content = "" ∨ content.length < MOD_CACHE_MIN_LENGTH := Or.inr hlen
  simp [cacheModerationResult, getCachedModerationResult, hc]

/-- Witness for C7 at concrete input: content `"ab"` (length 2 < 5). -/
theorem shortContent_cache_noop_witness :
    cacheModerationResult (fun c => c) emptyKV "ab" (some "x") =
      (emptyKV, []) ∧
    (getCachedModerationResult (fun c => c) emptyKV "ab").1 =
      ⟨false, none⟩ ∧
    (getCachedModerationResult (fun c => c)
      (cacheModerationResult (fun c => c) emptyKV "ab" (some "x")).1
      "ab").1 = ⟨false, none⟩ :=
  shortContent_cache_noop (fun c => c) emptyKV "ab" (some "x") (by decide)

/-- Claim C6 (amended): for content at/above the minimum length,
`store(content, null)` then `lookup(content)` yields `{hit:true,
result:null}`, and `store(content, reason)` for a NON-EMPTY reason
string then `lookup(content)` yields `{hit:true, result:reason}`.  (An
empty reason string is falsy in JS and is stored as the SAFE sentinel —
see the counterexample.) -/
theorem cache_round_trip (hash : String → String) (s : KVStore)
    (content reason : String)
    (hlen : MOD_CACHE_MIN_LENGTH ≤ content.length) :
    ((getCachedModerationResult hash
        (cacheModerationResult hash s content none).1 content).1 =
      ⟨true, none⟩) ∧
    (reason ≠ "" →
      (getCachedModerationResult hash
        (cacheModerationResult hash s content (some reason)).1 content).1 =
      ⟨true, some reason⟩) := by
  have hc := cache_gate_passes hlen
  constructor
  · simp [cacheModerationResult, getCachedModerationResult, hc, upd_self]
  · intro hr
    simp [cacheModerationResult, getCachedModerationResult, hc, hr,
      upd_self, unsafeTag_ne_safe, jsReplaceFirst_unsafeTag]

/-- Witness for C6 at concrete input: content `"hello!"`, reason
`"spam"`. -/
theorem cache_round_trip_witness :
    ((getCachedModerationResult (fun c => c)
        (cacheModerationResult (fun c => c) emptyKV "hello!" none).1
        "hello!").1 = ⟨true, none⟩) ∧
    ((getCachedModerationResult (fun c => c)
        (cacheModerationResult (fun c => c) emptyKV "hello!"
          (some "spam")).1 "hello!").1 = ⟨true, some "spam"⟩) :=
  ⟨(cache_round_trip (fun c => c) emptyKV "hello!" "spam" (by decide)).1,
   (cache_round_trip (fun c => c) emptyKV "hello!" "spam" (by decide)).2
     (by decide)⟩

/-- Counterexample to C6 as stated: storing the (degenerate) reason
string `""` for content `"hello"` and looking it up yields
`{hit:true, result:null}`, not `{hit:true, result:""}` — the falsy
check `result ? "UNSAFE:"+result : "SAFE"` encodes an empty reason as
SAFE. -/
theorem cache_round_trip_counterexample :
    ((getCachedModerationResult (fun c => c)
        (cacheModerationResult (fun c => c) emptyKV "hello" (some "")).1
        "hello").1 ≠ ⟨true, some ""⟩) ∧
    ((getCachedModerationResult (fun c => c)
        (cacheModerationResult (fun c => c) emptyKV "hello" (some "")).1
        "hello").1 = ⟨true, none⟩) := by
  constructor <;> decide

/-- Claim C1 (amended): every write `checkRateLimit` performs persists
the updated window with TTL `RATE_LIMIT_TTL_SECONDS` = 120 s, which
exceeds the 60 s window; the two allowed branches (new window,
increment) do write, but the rate-limited branch performs no write at
all — it only reads and returns. -/
theorem checkRateLimit_ttl_and_branches (now : Int) (g : String)
    (s : KVStore) :
    (∀ g' w ttl, Effect.putRateLimitE g' w ttl ∈ (checkRateLimit now g s).2.2 →
      ttl = RATE_LIMIT_TTL_SECONDS ∧
      RATE_LIMIT_WINDOW_MS < (ttl : Int) * 1000) ∧
    ((checkRateLimit now g s).1.allowed = true →
      ∃ w, Effect.putRateLimitE g w RATE_LIMIT_TTL_SECONDS ∈
        (checkRateLimit now g s).2.2) ∧
    ((checkRateLimit now g s).1.allowed = false →
      (checkRateLimit now g s).2.1 = s ∧
      (checkRateLimit now g s).2.2 = [Effect.getRateLimitE g]) := by
  unfold checkRateLimit
  match hm : s.ratelimit g with
  | none =>
    refine ⟨?_, ?_, ?_⟩
    · intro g' w ttl hmem
      simp at hmem
      refine ⟨hmem.2.2, ?_⟩
      rw [hmem.2.2]
      decide
    · intro _
      exact ⟨⟨now, 1⟩, by simp⟩
    · intro h
      simp at h
  | some w =>
    by_cases hexp : RATE_LIMIT_WINDOW_MS < now - w.windowStart
    · simp only [hexp, if_pos]
      refine ⟨?_, ?_, ?_⟩
      · intro g' w' ttl hmem
        simp at hmem
        refine ⟨hmem.2.2, ?_⟩
        rw [hmem.2.2]
        decide
      · intro _
        exact ⟨⟨now, 1⟩, by simp⟩
      · intro h
        simp at h
    · by_cases hcap : RATE_LIMIT_MAX_REQUESTS ≤ w.count
      · simp only [if_neg hexp, if_pos hcap]
        refine ⟨?_, ?_, ?_⟩
        · intro g' w' ttl hmem
          simp at hmem
        · intro h
          simp at h
        · intro _
          simp
      · simp only [if_neg hexp, if_neg hcap]
        refine ⟨?_, ?_, ?_⟩
        · intro g' w' ttl hmem
          simp at hmem
          refine ⟨hmem.2.2, ?_⟩
          rw [hmem.2.2]
          decide
        · intro _
          exact ⟨⟨w.windowStart, w.count + 1⟩, by simp⟩
        · intro h
          simp at h

/-- A store whose rate-limit window for every guest is exhausted
(count = 10 at windowStart = 0). -/
def rlFullStore : KVStore :=
  { emptyKV with ratelimit := fun _ => some ⟨0, RATE_LIMIT_MAX_REQUESTS⟩ }

/-- Counterexample to C1 as stated: a rate-limited call (store already
at `count = RATE_LIMIT_MAX_REQUESTS` inside the window) performs no
write at all — its effect trace is exactly one read, so the window is
NOT "written back on every branch". -/
theorem checkRateLimit_denied_no_write_counterexample :
    ((checkRateLimit 1 "g" rlFullStore).1.allowed = false) ∧
    ((checkRateLimit 1 "g" rlFullStore).2.2 = [Effect.getRateLimitE "g"]) := by
  constructor <;> decide

/-- Witness for C1 (amended) at concrete input: a fresh-window call
writes the window with the 120 s TTL; a denied call leaves the store
untouched. -/
theorem checkRateLimit_ttl_and_branches_witness :
    (∃ w, Effect.putRateLimitE "g" w RATE_LIMIT_TTL_SECONDS ∈
      (checkRateLimit 5 "g" emptyKV).2.2) ∧
    ((checkRateLimit 1 "g" rlFullStore).2.1 = rlFullStore ∧
     (checkRateLimit 1 "g" rlFullStore).2.2 = [Effect.getRateLimitE "g"]) :=
  ⟨((checkRateLimit_ttl_and_branches 5 "g" emptyKV).2.1 (by decide)),
   ((checkRateLimit_ttl_and_branches 1 "g" rlFullStore).2.2 (by decide))⟩

-- Trust-ledger operation sequences (for C4)

/-- The four trust operations of storage.js. -/
inductive TrustOp where
  | getScore (g : String)
  | inc (g : String)
  | reset (g : String)
  | force (g : String)

/-- State transition of one trust operation (`getTrustScore` reads
only). -/
def applyTrustOp (s : KVStore) : TrustOp → KVStore
  | .getScore _ => s
  | .inc g => (incrementTrustScore s g).1
  | .reset g => (resetTrustScore s g).1
  | .force g => (setUserTrusted s g).1

/-- State after a sequence of trust operations. -/
def applyTrustOps (s : KVStore) : List TrustOp → KVStore
  | [] => s
  | op :: ops => applyTrustOps (applyTrustOp s op) ops

/-- The C4 invariant: every stored trust score is at most the
threshold. -/
def TrustInv (s : KVStore) : Prop :=
  ∀ g v, s.trust g = some v → v ≤ TRUST_THRESHOLD

/-- One trust operation preserves the invariant. -/
theorem trustInv_step (s : KVStore) (op : TrustOp) (h : TrustInv s) :
    TrustInv (applyTrustOp s op) := by
  cases op with
  | getScore g => exact h
  | inc g =>
    intro g' v hv
    simp only [applyTrustOp, incrementTrustScore] at hv
    by_cases hc : (s.trust g).getD 0 < TRUST_THRESHOLD
    · simp only [hc, if_pos] at hv
      by_cases hg : g' = g
      · subst hg
        rw [upd_self] at hv
        cases hv
        omega
      · rw [upd_other _ _ _ _ hg] at hv
        exact h g' v hv
    · simp only [hc, if_neg, if_false] at hv
      exact h g' v hv
  | reset g =>
    intro g' v hv
    simp only [applyTrustOp, resetTrustScore] at hv
    by_cases hg : g' = g
    · subst hg
      rw [upd_self] at hv
      cases hv
    · rw [upd_other _ _ _ _ hg] at hv
      exact h g' v hv
  | force g =>
    intro g' v hv
    simp only [applyTrustOp, setUserTrusted] at hv
    by_cases hg : g' = g
    · subst hg
      rw [upd_self] at hv
      cases hv
      exact Nat.le_refl _
    · rw [upd_other _ _ _ _ hg] at hv
      exact h g' v hv

/-- A sequence of trust operations preserves the invariant. -/
theorem trustInv_steps (ops : List TrustOp) :
    ∀ s : KVStore, TrustInv s → TrustInv (applyTrustOps s ops) := by
  induction ops with
  | nil => intro s h; exact h
  | cons op ops ih =>
    intro s h
    exact ih _ (trustInv_step s op h)

/-- The empty store satisfies the invariant. -/
theorem trustInv_empty : TrustInv emptyKV := by
  intro g v hv
  exact Option.noConfusion hv

/-- Claim C4: under any sequence of `getTrustScore`,
`incrementTrustScore`, `resetTrustScore` and `setUserTrusted`
operations from a state whose stored scores are within bounds (such as
the empty store), every stored score and every read score stays in
`[0, TRUST_THRESHOLD]`; and `incrementTrustScore` performs no write —
the state is unchanged and the trace is a bare read — when the current
score already equals `TRUST_THRESHOLD`. -/
theorem trust_clamped (ops : List TrustOp) (g : String) (s : KVStore)
    (hinv : TrustInv s) :
    TrustInv (applyTrustOps s ops) ∧
    (getTrustScore (applyTrustOps s ops) g).1 ≤ TRUST_THRESHOLD ∧
    (∀ s' : KVStore, (getTrustScore s' g).1 = TRUST_THRESHOLD →
      incrementTrustScore s' g = (s', [Effect.getTrustE g])) := by
  have hinv' := trustInv_steps ops s hinv
  refine ⟨hinv', ?_, ?_⟩
  · unfold getTrustScore
    match hv : (applyTrustOps s ops).trust g with
    | none => simp
    | some v => simpa using hinv' g v hv
  · intro s' hs
    unfold getTrustScore at hs
    unfold incrementTrustScore
    rw [show ((s'.trust g).getD 0) = TRUST_THRESHOLD from hs]
    simp

/-- Witness for C4 at concrete input: force-trust then four increments
of guest `"7"` from the empty store. -/
theorem trust_clamped_witness :
    (getTrustScore (applyTrustOps emptyKV
      [TrustOp.force "7", TrustOp.inc "7", TrustOp.inc "7",
       TrustOp.inc "7", TrustOp.inc "7"]) "7").1 ≤ TRUST_THRESHOLD ∧
    incrementTrustScore
      (applyTrustOps emptyKV [TrustOp.force "7"]) "7" =
      (applyTrustOps emptyKV [TrustOp.force "7"], [Effect.getTrustE "7"]) :=
  ⟨(trust_clamped [TrustOp.force "7", TrustOp.inc "7", TrustOp.inc "7",
      TrustOp.inc "7", TrustOp.inc "7"] "7" emptyKV trustInv_empty).2.1,
   (trust_clamped [] "7" (applyTrustOps emptyKV [TrustOp.force "7"])
      (trustInv_steps [TrustOp.force "7"] emptyKV trustInv_empty)).2.2
     (applyTrustOps emptyKV [TrustOp.force "7"]) (by decide)⟩

-- Rate-limit window sequences (for C8)

/-- Sign facts about `Math.ceil(d / 1000)` for the reset countdown. -/
theorem jsCeilDiv_sign (d : Int) (hd : 0 ≤ d) :
    0 ≤ jsCeilDiv d 1000 ∧ (0 < d → 0 < jsCeilDiv d 1000) := by
  unfold jsCeilDiv
  constructor
  · rcases eq_or_lt_of_le hd with h | h
    · rw [← h]
      norm_num
    · have hneg := Int.ediv_neg' (a := -d) (b := 1000) (by omega) (by norm_num)
      linarith
  · intro h
    have hneg := Int.ediv_neg' (a := -d) (b := 1000) (by omega) (by norm_num)
    linarith

/-- In-window behaviour of repeated `checkRateLimit` calls: starting
from a stored window `⟨t0, k⟩` with `1 ≤ k` and capacity for all the
calls, each call is allowed with `remaining = MAX - 1 - (k + i)` and
the stored count grows by one per call. -/
theorem runRL_window_steps (g : String) (t0 : Int) :
    ∀ (ts : List Int) (k : Nat) (s : KVStore),
      s.ratelimit g = some ⟨t0, k⟩ →
      k + ts.length ≤ RATE_LIMIT_MAX_REQUESTS →
      (∀ t ∈ ts, t0 ≤ t ∧ t - t0 ≤ RATE_LIMIT_WINDOW_MS) →
      (runRL g ts s).1 = (List.range ts.length).map
        (fun i => ⟨true, RATE_LIMIT_MAX_REQUESTS - 1 - (k + i), none⟩) ∧
      (runRL g ts s).2.ratelimit g = some ⟨t0, k + ts.length⟩ := by
  intro ts
  induction ts with
  | nil =>
    intro k s hs _ _
    exact ⟨rfl, by simpa using hs⟩
  | cons t ts ih =>
    intro k s hs hcapa hbound
    have hbt := hbound t (List.mem_cons_self t ts)
    have hbts : ∀ u ∈ ts, t0 ≤ u ∧ u - t0 ≤ RATE_LIMIT_WINDOW_MS :=
      fun u hu => hbound u (List.mem_cons_of_mem t hu)
    have hexp : ¬(RATE_LIMIT_WINDOW_MS < t - t0) := by omega
    have hcap : ¬(RATE_LIMIT_MAX_REQUESTS ≤ k) := by
      simp only [List.length_cons] at hcapa
      omega
    have hstep : checkRateLimit t g s =
        (⟨true, RATE_LIMIT_MAX_REQUESTS - k - 1, none⟩,
         { s with ratelimit := upd s.ratelimit g (some ⟨t0, k + 1⟩) },
         [.getRateLimitE g,
          .putRateLimitE g ⟨t0, k + 1⟩ RATE_LIMIT_TTL_SECONDS]) := by
      unfold checkRateLimit
      rw [hs]
      simp only [if_neg hexp, if_neg hcap]
    have hsnew : ({ s with ratelimit := upd s.ratelimit g (some ⟨t0, k + 1⟩) } :
        KVStore).ratelimit g = some ⟨t0, k + 1⟩ := upd_self _ _ _
    have hih := ih (k + 1)
      { s with ratelimit := upd s.ratelimit g (some ⟨t0, k + 1⟩) }
      hsnew (by simp only [List.length_cons] at hcapa; omega) hbts
    constructor
    · show (checkRateLimit t g s).1 ::
        (runRL g ts (checkRateLimit t g s).2.1).1 = _
      rw [hstep]
      rw [List.length_cons, List.range_succ_eq_map, List.map_cons]
      refine congrArg₂ _ ?_ ?_
      · show (⟨true, RATE_LIMIT_MAX_REQUESTS - k - 1, none⟩ : RLResult) =
          ⟨true, RATE_LIMIT_MAX_REQUESTS - 1 - (k + 0), none⟩
        have : RATE_LIMIT_MAX_REQUESTS - k - 1 =
            RATE_LIMIT_MAX_REQUESTS - 1 - (k + 0) := by omega
        rw [this]
      · rw [hih.1, List.map_map]
        refine List.map_congr_left ?_
        intro i _
        show (⟨true, RATE_LIMIT_MAX_REQUESTS - 1 - (k + 1 + i), none⟩ : RLResult) =
          ⟨true, RATE_LIMIT_MAX_REQUESTS - 1 - (k + Nat.succ i), none⟩
        have : k + 1 + i = k + Nat.succ i := by omega
        rw [this]
    · show (runRL g ts (checkRateLimit t g s).2.1).2.ratelimit g = _
      rw [hstep]
      rw [hih.2]
      have : k + 1 + ts.length = k + (t :: ts).length := by
        simp only [List.length_cons]
        omega
      rw [this]

/-- Claim C8 (amended): for a guest with no stored window, N calls all
within `RATE_LIMIT_WINDOW_MS` of the first, with N ≤
`RATE_LIMIT_MAX_REQUESTS`, are all allowed with strictly decreasing
`remaining` running from MAX-1 down to MAX-N; when N =
`RATE_LIMIT_MAX_REQUESTS`, a further call in the same window is denied
with `remaining = 0` and `resetIn ≥ 0`, and `resetIn > 0` whenever that
call happens strictly before `windowStart + RATE_LIMIT_WINDOW_MS` (at
exactly the boundary the code's ceiling yields `resetIn = 0`).  (As
stated, with the (N+1)th call denied for every N ≤ MAX, the claim
fails: see the counterexample.) -/
theorem rate_limit_window_sequence (g : String) (s : KVStore) (t0 : Int)
    (ts : List Int)
    (h0 : s.ratelimit g = none)
    (hts : ∀ t ∈ ts, t0 ≤ t ∧ t - t0 ≤ RATE_LIMIT_WINDOW_MS)
    (hn : ts.length + 1 ≤ RATE_LIMIT_MAX_REQUESTS) :
    ((runRL g (t0 :: ts) s).1 = (List.range (ts.length + 1)).map
      (fun i => ⟨true, RATE_LIMIT_MAX_REQUESTS - 1 - i, none⟩)) ∧
    ((runRL g (t0 :: ts) s).2.ratelimit g = some ⟨t0, ts.length + 1⟩) ∧
    (∀ t' : Int, ts.length + 1 = RATE_LIMIT_MAX_REQUESTS → t0 ≤ t' →
      t' - t0 ≤ RATE_LIMIT_WINDOW_MS →
      ((checkRateLimit t' g (runRL g (t0 :: ts) s).2).1.allowed = false ∧
       (checkRateLimit t' g (runRL g (t0 :: ts) s).2).1.remaining = 0 ∧
       ∃ r, (checkRateLimit t' g (runRL g (t0 :: ts) s).2).1.resetIn = some r ∧
         0 ≤ r ∧ (t' - t0 < RATE_LIMIT_WINDOW_MS → 0 < r))) := by
  have hfirst : checkRateLimit t0 g s =
      (⟨true, RATE_LIMIT_MAX_REQUESTS - 1, none⟩,
       { s with ratelimit := upd s.ratelimit g (some ⟨t0, 1⟩) },
       [.getRateLimitE g,
        .putRateLimitE g ⟨t0, 1⟩ RATE_LIMIT_TTL_SECONDS]) := by
    unfold checkRateLimit
    rw [h0]
  have hs1 : ({ s with ratelimit := upd s.ratelimit g (some ⟨t0, 1⟩) } :
      KVStore).ratelimit g = some ⟨t0, 1⟩ := upd_self _ _ _
  have hrest := runRL_window_steps g t0 ts 1
    { s with ratelimit := upd s.ratelimit g (some ⟨t0, 1⟩) }
    hs1 (by omega) hts
  have hruns : runRL g (t0 :: ts) s =
      ((checkRateLimit t0 g s).1 ::
        (runRL g ts (checkRateLimit t0 g s).2.1).1,
       (runRL g ts (checkRateLimit t0 g s).2.1).2) := rfl
  have hlist : (runRL g (t0 :: ts) s).1 = (List.range (ts.length + 1)).map
      (fun i => ⟨true, RATE_LIMIT_MAX_REQUESTS - 1 - i, none⟩) := by
    rw [hruns]
    simp only [hfirst]
    rw [List.range_succ_eq_map, List.map_cons]
    refine congrArg₂ _ ?_ ?_
    · show (⟨true, RATE_LIMIT_MAX_REQUESTS - 1, none⟩ : RLResult) =
        ⟨true, RATE_LIMIT_MAX_REQUESTS - 1 - 0, none⟩
      rfl
    · rw [hrest.1, List.map_map]
      refine List.map_congr_left ?_
      intro i _
      show (⟨true, RATE_LIMIT_MAX_REQUESTS - 1 - (1 + i), none⟩ : RLResult) =
        ⟨true, RATE_LIMIT_MAX_REQUESTS - 1 - Nat.succ i, none⟩
      have : 1 + i = Nat.succ i := by omega
      rw [this]
  have hstate : (runRL g (t0 :: ts) s).2.ratelimit g =
      some ⟨t0, ts.length + 1⟩ := by
    rw [hruns]
    simp only [hfirst]
    rw [hrest.2]
    have : 1 + ts.length = ts.length + 1 := by omega
    rw [this]
  refine ⟨hlist, hstate, ?_⟩
  intro t' hfull hle hwin
  have hexp : ¬(RATE_LIMIT_WINDOW_MS < t' - t0) := by omega
  have hcap : RATE_LIMIT_MAX_REQUESTS ≤ ts.length + 1 := by omega
  have hden : (checkRateLimit t' g (runRL g (t0 :: ts) s).2) =
      (⟨false, 0, some (jsCeilDiv (t0 + RATE_LIMIT_WINDOW_MS - t') 1000)⟩,
       (runRL g (t0 :: ts) s).2, [.getRateLimitE g]) := by
    unfold checkRateLimit
    rw [hstate]
    simp only [if_neg hexp, if_pos hcap]
  rw [hden]
  have hsign := jsCeilDiv_sign (t0 + RATE_LIMIT_WINDOW_MS - t') (by omega)
  exact ⟨rfl, rfl, jsCeilDiv (t0 + RATE_LIMIT_WINDOW_MS - t') 1000, rfl,
    hsign.1, fun hstrict => hsign.2 (by omega)⟩

/-- Counterexample to C8 as stated: (i) with N = 1 ≤ MAX, the second
in-window call is still allowed (`allowed=true, remaining=8`), so "the
(N+1)th call returns allowed=false" fails for N < MAX; (ii) a denied
call at exactly `windowStart + RATE_LIMIT_WINDOW_MS` (still inside the
window by the code's test) returns `resetIn = 0`, not `> 0`. -/
theorem rate_limit_counterexample :
    ((runRL "g" [0, 1] emptyKV).1 =
      [⟨true, 9, none⟩, ⟨true, 8, none⟩]) ∧
    ((checkRateLimit 60000 "g" rlFullStore).1 = ⟨false, 0, some 0⟩) := by
  constructor <;> decide

/-- Witness for C8 (amended) at concrete input: ten calls at times
0..9 from the empty store, then a denied call at t = 30000. -/
theorem rate_limit_window_sequence_witness :
    ((runRL "g" (0 :: [1, 2, 3, 4, 5, 6, 7, 8, 9]) emptyKV).1 =
      (List.range ((List.length [1, 2, 3, 4, 5, 6, 7, 8, 9] : Nat) + 1)).map
        (fun i => ⟨true, RATE_LIMIT_MAX_REQUESTS - 1 - i, none⟩)) ∧
    ((checkRateLimit 30000 "g"
        (runRL "g" (0 :: [1, 2, 3, 4, 5, 6, 7, 8, 9]) emptyKV).2).1.allowed
      = false) :=
  ⟨(rate_limit_window_sequence "g" emptyKV 0 [1, 2, 3, 4, 5, 6, 7, 8, 9]
      rfl (by decide) (by decide)).1,
   ((rate_limit_window_sequence "g" emptyKV 0 [1, 2, 3, 4, 5, 6, 7, 8, 9]
      rfl (by decide) (by decide)).2.2 30000 (by decide) (by decide)
      (by decide)).1⟩

-- Retry-loop analysis (for C3 and C9)

/-- One-step unfolding of the retry loop at a positive iteration
count. -/
theorem callGeminiLoop_succ (outcomes : Nat → ApiOutcome)
    (keys : List String) (maxRetries rem attempt idx : Nat) :
    callGeminiLoop outcomes keys maxRetries (rem + 1) attempt idx =
      (match outcomes attempt with
       | .httpFail _ =>
         if attempt < maxRetries - 1 then
           ((callGeminiLoop outcomes keys maxRetries rem (attempt + 1)
               (idx + 1)).1,
            keys.getD (idx % keys.length) "" ::
              (callGeminiLoop outcomes keys maxRetries rem (attempt + 1)
                (idx + 1)).2.1,
            (callGeminiLoop outcomes keys maxRetries rem (attempt + 1)
              (idx + 1)).2.2)
         else (none, [keys.getD (idx % keys.length) ""], idx + 1)
       | .thrown =>
         if attempt < maxRetries - 1 then
           ((callGeminiLoop outcomes keys maxRetries rem (attempt + 1)
               (idx + 1)).1,
            keys.getD (idx % keys.length) "" ::
              (callGeminiLoop outcomes keys maxRetries rem (attempt + 1)
                (idx + 1)).2.1,
            (callGeminiLoop outcomes keys maxRetries rem (attempt + 1)
              (idx + 1)).2.2)
         else (none, [keys.getD (idx % keys.length) ""], idx + 1)
       | .ok t => (classifyResponse t, [keys.getD (idx % keys.length) ""],
           idx + 1)) := rfl

/-- When every attempt fails, the retry loop runs exactly `rem` more
iterations, consumes the keys in rotation order and returns no
verdict. -/
theorem callGeminiLoop_all_fail (outcomes : Nat → ApiOutcome)
    (keys : List String) (maxRetries : Nat)
    (hfail : ∀ i, isApiFailure (outcomes i) = true) :
    ∀ (rem attempt idx : Nat), rem + attempt = maxRetries → 0 < rem →
    callGeminiLoop outcomes keys maxRetries rem attempt idx =
      (none,
       (List.range rem).map (fun j => keys.getD ((idx + j) % keys.length) ""),
       idx + rem) := by
  intro rem
  induction rem with
  | zero => intro attempt idx _ h; omega
  | succ r ih =>
    intro attempt idx hsum _
    have hoc := hfail attempt
    rw [callGeminiLoop_succ]
    cases r with
    | zero =>
      have hcond : ¬(attempt < maxRetries - 1) := by omega
      cases houtcome : outcomes attempt with
      | httpFail st => simp [if_neg hcond, List.range_succ]
      | thrown => simp [if_neg hcond, List.range_succ]
      | ok t =>
        rw [houtcome] at hoc
        exact absurd hoc (by simp [isApiFailure])
    | succ r' =>
      have hcond : attempt < maxRetries - 1 := by omega
      have hih := ih (attempt + 1) (idx + 1) (by omega) (by omega)
      cases houtcome : outcomes attempt with
      | httpFail st =>
        simp only [if_pos hcond, hih, Prod.mk.injEq, true_and]
        refine ⟨?_, by omega⟩
        conv_rhs => rw [List.range_succ_eq_map, List.map_cons, List.map_map]
        refine congrArg₂ List.cons ?_ ?_
        · rw [Nat.add_zero]
        · refine List.map_congr_left ?_
          intro j _
          show keys.getD ((idx + 1 + j) % keys.length) "" = _
          have : idx + 1 + j = idx + Nat.succ j := by omega
          rw [this]
          rfl
      | thrown =>
        simp only [if_pos hcond, hih, Prod.mk.injEq, true_and]
        refine ⟨?_, by omega⟩
        conv_rhs => rw [List.range_succ_eq_map, List.map_cons, List.map_map]
        refine congrArg₂ List.cons ?_ ?_
        · rw [Nat.add_zero]
        · refine List.map_congr_left ?_
          intro j _
          show keys.getD ((idx + 1 + j) % keys.length) "" = _
          have : idx + 1 + j = idx + Nat.succ j := by omega
          rw [this]
          rfl
      | ok t =>
        rw [houtcome] at hoc
        exact absurd hoc (by simp [isApiFailure])

/-- Claim C3: with a non-empty keyset and text of length ≥ 2, when
every API attempt fails (non-success response or thrown transport
exception), `checkContentSafety` returns no verdict (fail-open SAFE)
after exactly `keys.length` attempts, consuming the keys in rotation
order from the shared index; `checkImageSafety` likewise returns no
verdict with at most `keys.length` attempts (zero when the image
download itself fails).  No exception escapes: the only throw in the
source is `getNextApiKey` on an empty key array, which a non-empty
keyset excludes. -/
theorem moderation_fail_open (text : String) (keys : List String)
    (idx : Nat) (outcomesT outcomesI : Nat → ApiOutcome)
    (caption : Option String) (url : String)
    (fetchResult : Option ImageResp)
    (hk : keys ≠ []) (ht : 2 ≤ text.length)
    (hft : ∀ i, isApiFailure (outcomesT i) = true)
    (hfi : ∀ i, isApiFailure (outcomesI i) = true) :
    ((checkContentSafety text (some (.multiple keys)) outcomesT idx).1 = none ∧
     (checkContentSafety text (some (.multiple keys)) outcomesT idx).2.1 =
       (List.range keys.length).map
         (fun j => keys.getD ((idx + j) % keys.length) "") ∧
     (checkContentSafety text (some (.multiple keys)) outcomesT idx).2.1.length
       = keys.length) ∧
    ((checkImageSafety (some url) (some (.multiple keys)) caption fetchResult
        outcomesI idx).1 = none ∧
     (checkImageSafety (some url) (some (.multiple keys)) caption fetchResult
        outcomesI idx).2.1.length ≤ keys.length) := by
  have hguard : ¬(text = "" ∨ text.length < 2) := by
    rintro (he | hl)
    · subst he
      rw [show ("" : String).length = 0 from rfl] at ht
      omega
    · omega
  have hpos : 0 < keys.length := List.length_pos.mpr hk
  have hloop := callGeminiLoop_all_fail outcomesT keys keys.length hft
    keys.length 0 idx (by omega) hpos
  constructor
  · simp only [checkContentSafety, if_neg hguard, keysetOf, callGeminiApi]
    rw [hloop]
    simp
  · have hloopI := callGeminiLoop_all_fail outcomesI keys keys.length hfi
      keys.length 0 idx (by omega) hpos
    by_cases hurl : url = ""
    · simp [checkImageSafety, hurl]
    · cases fetchResult with
      | none => simp [checkImageSafety, hurl]
      | some resp =>
        by_cases hok : resp.ok = false
        · simp [checkImageSafety, hurl, hok]
        · simp only [checkImageSafety, if_neg hurl, hok, if_neg,
            keysetOf, callGeminiApi]
          rw [hloopI]
          simp

/-- Witness for C3 at concrete input: two keys, every attempt throws;
the text check uses both keys in order and yields no verdict, as does
the image check. -/
theorem moderation_fail_open_witness :
    ((checkContentSafety "hello" (some (.multiple ["k1", "k2"]))
        (fun _ => .thrown) 0).1 = none ∧
     (checkContentSafety "hello" (some (.multiple ["k1", "k2"]))
        (fun _ => .thrown) 0).2.1 =
       (List.range (List.length ["k1", "k2"])).map
         (fun j => ["k1", "k2"].getD ((0 + j) % List.length ["k1", "k2"]) "") ∧
     (checkContentSafety "hello" (some (.multiple ["k1", "k2"]))
        (fun _ => .thrown) 0).2.1.length = List.length ["k1", "k2"]) ∧
    ((checkImageSafety (some "http://h/p.png") (some (.multiple ["k1", "k2"]))
        none (some ⟨true, [137, 80]⟩) (fun _ => .thrown) 0).1 = none ∧
     (checkImageSafety (some "http://h/p.png") (some (.multiple ["k1", "k2"]))
        none (some ⟨true, [137, 80]⟩) (fun _ => .thrown) 0).2.1.length ≤
       List.length ["k1", "k2"]) :=
  moderation_fail_open "hello" ["k1", "k2"] 0 (fun _ => .thrown)
    (fun _ => .thrown) none "http://h/p.png" (some ⟨true, [137, 80]⟩)
    (by decide) (by decide) (fun _ => rfl) (fun _ => rfl)

-- Classification analysis (for C9)

/-- ASCII lower-case letters are not white space. -/
theorem isWsCode_letter {n : Nat} (h1 : 97 ≤ n) (h2 : n ≤ 122) :
    isWsCode n = false := by
  simp only [isWsCode, Bool.or_eq_false_iff, beq_eq_false_iff_ne, ne_eq,
    Bool.and_eq_false_iff, decide_eq_false_iff_not, not_le]
  omega

/-- ASCII upper-case letters are not white space. -/
theorem isWsCode_upper {n : Nat} (h1 : 65 ≤ n) (h2 : n ≤ 90) :
    isWsCode n = false := by
  simp only [isWsCode, Bool.or_eq_false_iff, beq_eq_false_iff_ne, ne_eq,
    Bool.and_eq_false_iff, decide_eq_false_iff_not, not_le]
  omega

/-- Upper-casing does not change whether a code point is white
space. -/
theorem isWsCode_upCode (n : Nat) : isWsCode (upCode n) = isWsCode n := by
  unfold upCode
  split
  · next h =>
    rw [isWsCode_letter h.1 h.2, isWsCode_upper (by omega) (by omega)]
  · rfl

/-- A nonempty pattern with no white-space code point occurs in a list
iff it occurs after dropping leading white space. -/
theorem infix_dropWhile_of_infix (q : Nat → Bool) (p : List Nat)
    (hne : p ≠ []) (hq : ∀ a ∈ p, q a = false) :
    ∀ m : List Nat, p <:+: m → p <:+: m.dropWhile q := by
  intro m
  induction m with
  | nil =>
    intro h
    rw [List.infix_nil] at h
    exact absurd h hne
  | cons c cs ih =>
    intro h
    rw [List.dropWhile_cons]
    by_cases hc : q c = true
    · simp only [hc, if_pos]
      rcases List.infix_cons_iff.mp h with hpre | hinf
      · obtain ⟨t, ht⟩ := hpre
        cases p with
        | nil => exact absurd rfl hne
        | cons p0 ps =>
          have hp0 : p0 = c := by
            have := congrArg (fun l => l.head?) ht
            simpa using this
          have := hq p0 (List.mem_cons_self p0 ps)
          rw [hp0, hc] at this
          cases this
      · exact ih hinf
    · simp only [hc, if_neg, if_false]
      exact h

/-- Same statement as an equivalence (the dropped part is white space
which the pattern cannot touch). -/
theorem infix_dropWhile_iff (q : Nat → Bool) (p : List Nat)
    (hne : p ≠ []) (hq : ∀ a ∈ p, q a = false) (m : List Nat) :
    p <:+: m.dropWhile q ↔ p <:+: m :=
  ⟨fun h => h.trans (List.dropWhile_suffix q).isInfix,
   infix_dropWhile_of_infix q p hne hq m⟩

/-- A nonempty white-space-free pattern occurs in a list iff it occurs
in its trim. -/
theorem infix_trimCodes_iff (p m : List Nat) (hne : p ≠ [])
    (hq : ∀ a ∈ p, isWsCode a = false) :
    p <:+: trimCodes m ↔ p <:+: m := by
  unfold trimCodes
  have hner : p.reverse ≠ [] := by
    simpa using hne
  have hqr : ∀ a ∈ p.reverse, isWsCode a = false := by
    intro a ha
    exact hq a (List.mem_reverse.mp ha)
  constructor
  · intro h
    have h1 : p.reverse <:+: (m.dropWhile isWsCode).reverse.dropWhile isWsCode := by
      have := List.reverse_infix.mpr h
      simpa using this
    have h2 : p.reverse <:+: (m.dropWhile isWsCode).reverse :=
      h1.trans (List.dropWhile_suffix isWsCode).isInfix
    have h3 : p <:+: m.dropWhile isWsCode := by
      have := List.reverse_infix.mpr h2
      simpa using this
    exact h3.trans (List.dropWhile_suffix isWsCode).isInfix
  · intro h
    have h1 : p <:+: m.dropWhile isWsCode :=
      infix_dropWhile_of_infix isWsCode p hne hq m h
    have h2 : p.reverse <:+: (m.dropWhile isWsCode).reverse := by
      exact List.reverse_infix.mpr h1
    have h3 : p.reverse <:+: (m.dropWhile isWsCode).reverse.dropWhile isWsCode :=
      infix_dropWhile_of_infix isWsCode p.reverse hner hqr _ h2
    have h4 := List.reverse_infix.mpr h3
    simpa using h4

/-- Upper-casing commutes with trimming. -/
theorem map_upCode_trimCodes (l : List Nat) :
    (trimCodes l).map upCode = trimCodes (l.map upCode) := by
  have hcomp : isWsCode ∘ upCode = isWsCode := funext isWsCode_upCode
  unfold trimCodes
  rw [List.dropWhile_map, hcomp, ← List.map_reverse, List.dropWhile_map,
    hcomp, ← List.map_reverse]

/-- Definitional unfolding of the classifier on a present response
text. -/
theorem classifyResponse_some (t : String) :
    classifyResponse (some t) =
      if ((trimCodes (strCodes t)).map upCode ≠ [] ∧
          unsafeCodes <:+: (trimCodes (strCodes t)).map upCode) then
        some "Content policy violation"
      else none := rfl

/-- The classifier never returns anything but `none` or the fixed
reason string. -/
theorem classifyResponse_fixed (o : Option String) :
    classifyResponse o = none ∨
    classifyResponse o = some "Content policy violation" := by
  cases o with
  | none => exact Or.inl rfl
  | some t =>
    rw [classifyResponse_some]
    by_cases h : ((trimCodes (strCodes t)).map upCode ≠ [] ∧
        unsafeCodes <:+: (trimCodes (strCodes t)).map upCode)
    · exact Or.inr (if_pos h)
    · exact Or.inl (if_neg h)

/-- Every exit of the retry loop is `none` or the fixed reason
string. -/
theorem callGeminiLoop_verdict (outcomes : Nat → ApiOutcome)
    (keys : List String) (maxRetries : Nat) :
    ∀ (rem attempt idx : Nat),
    (callGeminiLoop outcomes keys maxRetries rem attempt idx).1 = none ∨
    (callGeminiLoop outcomes keys maxRetries rem attempt idx).1 =
      some "Content policy violation" := by
  intro rem
  induction rem with
  | zero => intro attempt idx; exact Or.inl rfl
  | succ r ih =>
    intro attempt idx
    rw [callGeminiLoop_succ]
    cases houtcome : outcomes attempt with
    | httpFail st =>
      by_cases hcond : attempt < maxRetries - 1
      · simpa [hcond] using ih (attempt + 1) (idx + 1)
      · simp [hcond]
    | thrown =>
      by_cases hcond : attempt < maxRetries - 1
      · simpa [hcond] using ih (attempt + 1) (idx + 1)
      · simp [hcond]
    | ok t => simpa using classifyResponse_fixed t

/-- Claim C9: the classifier yields the fixed string "Content policy
violation" exactly when the response text contains "UNSAFE" after
(ASCII) upper-casing — i.e. case-insensitively — and `null` otherwise;
across the whole retry loop the verdict is always `none` or that fixed
string, never the model's own text. -/
theorem unsafe_classification (t : String) :
    (classifyResponse (some t) = none ∨
     classifyResponse (some t) = some "Content policy violation") ∧
    (classifyResponse (some t) = some "Content policy violation" ↔
      unsafeCodes <:+: (strCodes t).map upCode) ∧
    (∀ (payload : GeminiPayload) (keys : List String)
       (maxRetries idx : Nat) (outcomes : Nat → ApiOutcome),
      (callGeminiApi outcomes payload keys maxRetries idx).1 = none ∨
      (callGeminiApi outcomes payload keys maxRetries idx).1 =
        some "Content policy violation") := by
  have hne : unsafeCodes ≠ [] := by decide
  have hq : ∀ a ∈ unsafeCodes, isWsCode a = false := by decide
  refine ⟨classifyResponse_fixed (some t), ?_, ?_⟩
  · rw [classifyResponse_some]
    constructor
    · intro h
      by_cases hc : ((trimCodes (strCodes t)).map upCode ≠ [] ∧
          unsafeCodes <:+: (trimCodes (strCodes t)).map upCode)
      · have h2 := hc.2
        rw [map_upCode_trimCodes] at h2
        exact (infix_trimCodes_iff unsafeCodes ((strCodes t).map upCode)
          hne hq).mp h2
      · rw [if_neg hc] at h
        cases h
    · intro h
      have h1 : unsafeCodes <:+: trimCodes ((strCodes t).map upCode) :=
        (infix_trimCodes_iff unsafeCodes ((strCodes t).map upCode)
          hne hq).mpr h
      rw [← map_upCode_trimCodes] at h1
      have h2 : (trimCodes (strCodes t)).map upCode ≠ [] := by
        intro hnil
        rw [hnil, List.infix_nil] at h1
        exact hne h1
      rw [if_pos ⟨h2, h1⟩]
  · intro payload keys maxRetries idx outcomes
    exact callGeminiLoop_verdict outcomes keys maxRetries maxRetries 0 idx

-- Blocked-gate analysis (for C2)

/-- Claim C2: for an inbound message from a blocked guest whose text is
neither `/lang` nor a `/appeal` command, the handler returns with the
store untouched, sends exactly the fixed blocked notice, and performs
no rate-limit access, no moderation-cache access, no moderation call,
no trust write, no relay creation and no forward. -/
theorem blocked_gate_short_circuit (m : Msg) (env : Env) (o : Oracles)
    (s : KVStore)
    (hb : s.blocked m.chatId = some "true")
    (h1 : m.text.getD "" ≠ "/lang")
    (h2 : (m.text.getD "").startsWith "/appeal" = false) :
    (handleGuestMessage m env o s =
      (s, [Effect.getLangE m.chatId, Effect.getBlockedE m.chatId,
           Effect.sendMessageE m.chatId
             (tMsg "guest_blocked" []
               (jsOrStr (s.lang m.chatId) getDefaultLanguage))])) ∧
    (∀ e ∈ (handleGuestMessage m env o s).2,
      e.isRateLimitAccess = false ∧ e.isModCacheAccess = false ∧
      e.isModerationCall = false ∧ e.isTrustWrite = false ∧
      e.isRelayWrite = false ∧ e.isForwardE = false) ∧
    ((handleGuestMessage m env o s).2.filter Effect.isSendE =
      [Effect.sendMessageE m.chatId
        (tMsg "guest_blocked" []
          (jsOrStr (s.lang m.chatId) getDefaultLanguage))]) := by
  have hmain : handleGuestMessage m env o s =
      (s, [Effect.getLangE m.chatId, Effect.getBlockedE m.chatId,
           Effect.sendMessageE m.chatId
             (tMsg "guest_blocked" []
               (jsOrStr (s.lang m.chatId) getDefaultLanguage))]) := by
    simp only [handleGuestMessage, getLang, getUserLanguage,
      isGuestBlocked, hb]
    rw [if_neg h1]
    simp [h2]
  refine ⟨hmain, ?_, ?_⟩
  · intro e he
    rw [hmain] at he
    simp only [List.mem_cons, List.not_mem_nil, or_false] at he
    rcases he with rfl | rfl | rfl <;>
      exact ⟨rfl, rfl, rfl, rfl, rfl, rfl⟩
  · rw [hmain]
    rfl

/-- Concrete store for the C2 witness: every guest is blocked. -/
def c2WitnessStore : KVStore :=
  { emptyKV with blocked := fun _ => some "true" }

/-- Concrete message for the C2 witness. -/
def c2WitnessMsg : Msg :=
  { chatId := "42", msgId := 1, text := some "hello", caption := none,
    hasPhoto := false, hasSticker := false, stickerAnimated := false,
    fromUsername := none, fromFirstName := none, replyTo := none }

/-- Concrete environment for the C2 witness. -/
def c2WitnessEnv : Env :=
  { adminUid := "1", geminiApiKey := some "k", hash := fun c => c }

/-- Concrete oracles for the C2 witness. -/
def c2WitnessOracles : Oracles :=
  { now := 0, randSuffix := "r", textOutcomes := fun _ => .thrown,
    imageOutcomes := fun _ => .thrown, stickerOutcomes := fun _ => .thrown,
    imageFileUrl := none, stickerFileUrl := none, imageFetch := none,
    stickerFetch := none, fwdOk := true, fwdMsgId := 7, aiStartIdx := 0 }

/-- Witness for C2 at concrete input: guest `"42"` is blocked and sends
`"hello"`. -/
theorem blocked_gate_short_circuit_witness :
    handleGuestMessage c2WitnessMsg c2WitnessEnv c2WitnessOracles
      c2WitnessStore =
      (c2WitnessStore,
       [Effect.getLangE c2WitnessMsg.chatId,
        Effect.getBlockedE c2WitnessMsg.chatId,
        Effect.sendMessageE c2WitnessMsg.chatId
          (tMsg "guest_blocked" []
            (jsOrStr (c2WitnessStore.lang c2WitnessMsg.chatId)
              getDefaultLanguage))]) :=
  (blocked_gate_short_circuit c2WitnessMsg c2WitnessEnv c2WitnessOracles
    c2WitnessStore rfl (by decide) (by decide)).1

-- Callback-query split analysis (for C10)

/-- Splitting a separator-free chunk yields a single part. -/
theorem splitChAux_sepFree (sep : Char) (l : List Char) :
    ∀ acc : List Char, (∀ c ∈ l, c ≠ sep) →
    splitChAux sep l acc = [acc.reverse ++ l] := by
  induction l with
  | nil => intro acc _; simp [splitChAux]
  | cons c cs ih =>
    intro acc h
    have hc : c ≠ sep := h c (List.mem_cons_self c cs)
    rw [splitChAux, if_neg hc,
      ih (c :: acc) (fun d hd => h d (List.mem_cons_of_mem c hd))]
    simp

/-- Splitting past a separator-free chunk followed by the separator
produces that chunk as a part. -/
theorem splitChAux_sep_break (sep : Char) (l1 : List Char)
    (rest : List Char) :
    ∀ acc : List Char, (∀ c ∈ l1, c ≠ sep) →
    splitChAux sep (l1 ++ sep :: rest) acc =
      (acc.reverse ++ l1) :: splitChAux sep rest [] := by
  induction l1 with
  | nil => intro acc _; simp [splitChAux]
  | cons c cs ih =>
    intro acc h
    have hc : c ≠ sep := h c (List.mem_cons_self c cs)
    rw [List.cons_append, splitChAux, if_neg hc,
      ih (c :: acc) (fun d hd => h d (List.mem_cons_of_mem c hd))]
    simp

/-- The colon-split of a well-formed language callback payload. -/
theorem jsSplitChar_lang (code uid : String)
    (hc : ∀ c ∈ code.data, c ≠ ':')
    (hu : ∀ c ∈ uid.data, c ≠ ':') :
    jsSplitChar ':' ("lang:" ++ code ++ ":" ++ uid) = ["lang", code, uid] := by
  unfold jsSplitChar
  have hdata : ("lang:" ++ code ++ ":" ++ uid).data =
      ['l', 'a', 'n', 'g'] ++ ':' :: (code.data ++ ':' :: uid.data) := by
    rw [String.data_append, String.data_append, String.data_append,
      show "lang:".data = ['l', 'a', 'n', 'g', ':'] from rfl,
      show ":".data = [':'] from rfl]
    simp
  rw [hdata]
  rw [splitChAux_sep_break ':' ['l', 'a', 'n', 'g'] _ [] (by decide)]
  rw [splitChAux_sep_break ':' code.data uid.data [] hc]
  rw [splitChAux_sepFree ':' uid.data [] hu]
  simp

/-- Claim C10: for a language callback `lang:<code>:<userId>`, the
handler writes the language preference (and sends the confirmation)
only when the clicking user is `<userId>`; when the ids differ it
merely acknowledges the callback — no state is written and no message
is sent. -/
theorem lang_callback_owner_only (now : Int) (q : CbQuery) (env : Env)
    (s : KVStore) (code uid : String)
    (hd : q.data = "lang:" ++ code ++ ":" ++ uid)
    (hc : ∀ c ∈ code.data, c ≠ ':')
    (hu : ∀ c ∈ uid.data, c ≠ ':') :
    (q.fromId ≠ uid →
      handleCallbackQuery now q env s = (s, [Effect.answerCallbackE q.id])) ∧
    (q.fromId = uid →
      handleCallbackQuery now q env s =
        ({ s with lang := upd s.lang uid (some code) },
         [Effect.answerCallbackE q.id, Effect.putLangE uid code,
          Effect.sendMessageE uid (tMsg "lang_changed" [] code)])) := by
  have hsplit : jsSplitChar ':' q.data = ["lang", code, uid] := by
    rw [hd]
    exact jsSplitChar_lang code uid hc hu
  constructor
  · intro hne
    simp only [handleCallbackQuery, hsplit]
    simp [hne]
  · intro heq
    simp only [handleCallbackQuery, hsplit]
    simp [heq, setUserLanguage]

/-- Witness for C10 at concrete input: user 99 clicks user 123's
keyboard (nothing happens beyond the acknowledgement), and user 123
clicks their own (the preference is written). -/
theorem lang_callback_owner_only_witness :
    (handleCallbackQuery 0 ⟨"q1", "99", "lang:en:123"⟩ c2WitnessEnv emptyKV =
      (emptyKV, [Effect.answerCallbackE "q1"])) ∧
    (handleCallbackQuery 0 ⟨"q1", "123", "lang:en:123"⟩ c2WitnessEnv emptyKV =
      ({ emptyKV with lang := upd emptyKV.lang "123" (some "en") },
       [Effect.answerCallbackE "q1", Effect.putLangE "123" "en",
        Effect.sendMessageE "123" (tMsg "lang_changed" [] "en")])) :=
  ⟨(lang_callback_owner_only 0 ⟨"q1", "99", "lang:en:123"⟩ c2WitnessEnv
      emptyKV "en" "123" (by decide) (by decide) (by decide)).1 (by decide),
   (lang_callback_owner_only 0 ⟨"q1", "123", "lang:en:123"⟩ c2WitnessEnv
      emptyKV "en" "123" (by decide) (by decide) (by decide)).2 (by decide)⟩
